import Mathlib

/-
  Verification development for the TRacers backend risk engine.

  Shallow embedding of:
    src/backend/agents/financial_agent.py    (FinancialAgent.evaluate)
    src/backend/agents/academic_agent.py     (AcademicAgent.evaluate)
    src/backend/agents/residential_agent.py  (ResidentialAgent.evaluate)
    src/backend/agents/language_agent.py     (LanguageAgent.evaluate)
    src/backend/agents/uncertainty_agent.py  (UncertaintyAgent.evaluate)
    src/backend/agents/ethics_agent.py       (EthicsAgent.evaluate)
    src/backend/agents/coordinator.py        (CoordinatorAgent)
    src/backend/ioa.py                       (InterventionOrchestratorAgent)
    src/backend/agent.py                     (AgentAction and status enums)

  Modelling conventions:
  - Python floats are modelled as exact rationals (the heuristic scorers use
    only +, *, /, min, max and fixed decimal constants).
  - datetimes are modelled as rational "days since epoch"; the evaluation
    instant datetime.utcnow() is passed explicitly as a parameter `now`.
  - Python round(x, 3) (round-half-to-even) is modelled by `round3` below.
  - Python code that can raise is modelled in `Except String`; a raised
    exception is an `Except.error` carrying the exception description.
  - The language-reasoning capability (llm_core.LLMService) is external per
    the spec; the JSON object it returns for the ethics agent is passed in
    as an explicit argument of type EthicsLLMResult (absent JSON keys are
    `none`).
-/

/-- Python round-half-to-even of a rational to an integer
(the behaviour of builtin round on exact values). -/
def pyRound (q : ℚ) : ℤ :=
  if q - ⌊q⌋ < 1/2 then ⌊q⌋
  else if 1/2 < q - ⌊q⌋ then ⌊q⌋ + 1
  else if ⌊q⌋ % 2 = 0 then ⌊q⌋ else ⌊q⌋ + 1

/-- Python round(x, 3) on a rational. -/
def round3 (q : ℚ) : ℚ := (pyRound (q * 1000) : ℚ) / 1000

/-- Python round(x, 2) on a rational (used by `_identify_minority_opinions`
for the cascade factor rounding round(x, 2)). -/
def round2 (q : ℚ) : ℚ := (pyRound (q * 100) : ℚ) / 100

/-- Python percent-style formatting of a rational with two decimals,
modelling the f-string directive .2f used in generated comments. -/
def fmt2 (q : ℚ) : String :=
  let n : ℤ := pyRound (q * 100)
  let sign := if n < 0 then "-" else ""
  let a := n.natAbs
  let frac := a % 100
  let fracStr := (if frac < 10 then "0" else "") ++ toString frac
  sign ++ toString (a / 100) ++ "." ++ fracStr

/-- models.StudentEvent (SQLAlchemy ORM row): the fields consumed by the
agents. `timestamp` is in days. Being an ORM object it exposes attribute
access only: it has no dict-style .get method. -/
structure StudentEvent where
  event_type : String
  severity : ℚ
  timestamp : ℚ
  description : String
deriving DecidableEq

/-- Shape of the assessment dict produced by every domain agent and by the
uncertainty agent: keys agent, risk, confidence, comment (the details map
is modelled separately where a claim needs it). -/
structure AgentOutput where
  agent : String
  risk : ℚ
  confidence : ℚ
  comment : String
deriving DecidableEq

namespace FinancialAgent

/-- Event types FinancialAgent filters on (financial_agent.py line 34). -/
def financialTypes : List String :=
  ["scholarship_delay", "fee_payment", "financial_aid", "account_hold"]

/-- FinancialAgent._is_recent: event within `days` days of now. -/
def is_recent (now : ℚ) (e : StudentEvent) (days : ℚ) : Bool :=
  now - days ≤ e.timestamp

/-- FinancialAgent._generate_comment. -/
def generate_comment (count : ℕ) (recentCount : ℕ) (risk : ℚ) : String :=
  if risk < 3/10 then "Minimal financial friction detected"
  else if risk < 6/10 then
    "Moderate financial bureaucratic delays (" ++ toString count ++
      " events, " ++ toString recentCount ++ " recent)"
  else
    "Significant financial friction pattern - " ++ toString count ++
      " cumulative barriers detected"

/-- FinancialAgent.evaluate (financial_agent.py lines 21-79). -/
def evaluate (now : ℚ) (events : List StudentEvent) : AgentOutput :=
  let financial_events := events.filter (fun e => e.event_type ∈ financialTypes)
  if financial_events.isEmpty then
    { agent := "FinancialAgent", risk := 0, confidence := 9/10,
      comment := "No financial friction detected" }
  else
    let event_count := financial_events.length
    let recent_events := financial_events.filter (fun e => is_recent now e 30)
    let avg_severity := (financial_events.map (fun e => e.severity)).sum / event_count
    let frequency_factor := min ((event_count : ℚ) / 5) 1
    let recency_factor := (recent_events.length : ℚ) / max (event_count : ℚ) 1
    let severity_factor := avg_severity
    let risk := frequency_factor * (4/10) + recency_factor * (3/10) + severity_factor * (3/10)
    let confidence := min (6/10 + (event_count : ℚ) * (5/100)) (95/100)
    { agent := "FinancialAgent", risk := round3 risk, confidence := round3 confidence,
      comment := generate_comment event_count recent_events.length risk }

end FinancialAgent

namespace AcademicAgent

/-- Event types AcademicAgent filters on (academic_agent.py line 34). -/
def academicTypes : List String :=
  ["attendance_warning", "deadline_conflict", "admin_warning",
   "resource_access", "registration_block"]

/-- Stable insertion by timestamp, modelling the stable Python sorted with
key timestamp inside _detect_clustering. -/
def insertByTs (e : StudentEvent) : List StudentEvent → List StudentEvent
  | [] => [e]
  | x :: xs => if e.timestamp < x.timestamp then e :: x :: xs else x :: insertByTs e xs

/-- Python sorted(events, key timestamp) (stable). -/
def sortByTs (l : List StudentEvent) : List StudentEvent := l.foldr insertByTs []

/-- Count of consecutive sorted pairs at most 14 days apart. -/
def countClusterPairs : List StudentEvent → ℕ
  | a :: b :: rest =>
      (if b.timestamp - a.timestamp ≤ 14 then 1 else 0) + countClusterPairs (b :: rest)
  | _ => 0

/-- AcademicAgent._detect_clustering. -/
def detect_clustering (events : List StudentEvent) : ℕ :=
  if events.length < 2 then 0 else countClusterPairs (sortByTs events)

/-- AcademicAgent._generate_comment. -/
def generate_comment (count : ℕ) (clusters : ℕ) (risk : ℚ) : String :=
  if risk < 3/10 then "Low academic friction - isolated administrative events"
  else if risk < 6/10 then
    if clusters > 0 then
      "Moderate friction with " ++ toString clusters ++
        " clustered events - compounding barriers"
    else "Moderate academic bureaucratic pressure (" ++ toString count ++ " events)"
  else
    "High academic friction - " ++ toString count ++ " events including " ++
      toString clusters ++ " rapid-succession barriers"

/-- AcademicAgent.evaluate (academic_agent.py lines 22-79). -/
def evaluate (events : List StudentEvent) : AgentOutput :=
  let academic_events := events.filter (fun e => e.event_type ∈ academicTypes)
  if academic_events.isEmpty then
    { agent := "AcademicAgent", risk := 0, confidence := 85/100,
      comment := "No academic bureaucratic friction detected" }
  else
    let event_count := academic_events.length
    let clustered_events := detect_clustering academic_events
    let base_risk := min ((event_count : ℚ) / 6) (9/10)
    let cluster_penalty := min ((clustered_events : ℚ) * (15/100)) (3/10)
    let avg_severity := (academic_events.map (fun e => e.severity)).sum / event_count
    let risk := min (base_risk + cluster_penalty) 1 * avg_severity
    let confidence := min (65/100 + (event_count : ℚ) * (4/100)) (92/100)
    { agent := "AcademicAgent", risk := round3 risk, confidence := round3 confidence,
      comment := generate_comment event_count clustered_events risk }

end AcademicAgent

namespace ResidentialAgent

/-- Event types ResidentialAgent filters on (residential_agent.py line 33). -/
def residentialTypes : List String :=
  ["hostel_access", "mess_card", "room_assignment",
   "amenity_restriction", "housing_payment"]

/-- Basic-needs subset (residential_agent.py line 52). -/
def basicNeedsTypes : List String := ["mess_card", "amenity_restriction"]

/-- ResidentialAgent._generate_comment. -/
def generate_comment (count : ℕ) (basicNeeds : ℕ) (recent : ℕ) (risk : ℚ) : String :=
  if basicNeeds > 0 then
    "Basic needs friction detected - " ++ toString basicNeeds ++
      " mess/amenity barriers among " ++ toString count ++ " total events"
  else if risk > 6/10 then
    "Significant residential friction - " ++ toString count ++
      " housing-related barriers, " ++ toString recent ++ " recent"
  else if risk > 3/10 then
    "Moderate residential bureaucracy - " ++ toString count ++ " access issues"
  else "Minor residential friction"

/-- ResidentialAgent.evaluate (residential_agent.py lines 22-76). -/
def evaluate (now : ℚ) (events : List StudentEvent) : AgentOutput :=
  let residential_events := events.filter (fun e => e.event_type ∈ residentialTypes)
  if residential_events.isEmpty then
    { agent := "ResidentialAgent", risk := 0, confidence := 8/10,
      comment := "No residential friction detected" }
  else
    let event_count := residential_events.length
    let basic_needs_events := residential_events.filter
      (fun e => e.event_type ∈ basicNeedsTypes)
    let recent_events := residential_events.filter
      (fun e => now - e.timestamp ≤ 21)
    let base_risk := min ((event_count : ℚ) / 4) (85/100)
    let basic_needs_multiplier := 1 + (basic_needs_events.length : ℚ) * (2/10)
    let recency_factor := (recent_events.length : ℚ) / max (event_count : ℚ) 1
    let risk := min (base_risk * basic_needs_multiplier * (7/10 + (3/10) * recency_factor)) 1
    let confidence := min (55/100 + (event_count : ℚ) * (6/100)) (88/100)
    { agent := "ResidentialAgent", risk := round3 risk, confidence := round3 confidence,
      comment := generate_comment event_count basic_needs_events.length
        recent_events.length risk }

end ResidentialAgent

namespace LanguageAgent

/-- LanguageAgent.evaluate (language_agent.py lines 22-68).

The source filters with a list comprehension over calls e.get(..): it treats
each event as a dict. CoordinatorAgent.analyze_student passes SQLAlchemy
StudentEvent rows, which have no .get attribute, so the first iteration of
the comprehension raises AttributeError. Hence: empty input reaches the
no-signal branch (the comprehension never calls .get); any non-empty input
raises before anything else in the body runs. -/
def evaluate (events : List StudentEvent) : Except String AgentOutput :=
  match events with
  | [] =>
      .ok { agent := "LanguageAgent", risk := 0, confidence := 75/100,
            comment := "No language friction detected" }
  | _ :: _ =>
      .error "AttributeError: StudentEvent object has no attribute get"

end LanguageAgent

namespace UncertaintyAgent

/-- UncertaintyAgent._assess_sparsity. -/
def assess_sparsity (event_count : ℕ) : ℚ :=
  if event_count = 0 then 1
  else if event_count < 3 then 8/10
  else if event_count < 5 then 5/10
  else if event_count < 8 then 3/10
  else 1/10

/-- Timestamp of the most recent event: Python max(events, key timestamp)
followed by the .timestamp projection (only the timestamp is consumed). -/
def mostRecentTs (e : StudentEvent) (rest : List StudentEvent) : ℚ :=
  rest.foldl (fun acc x => max acc x.timestamp) e.timestamp

/-- UncertaintyAgent._assess_staleness. days_since is the integer day count
of the timedelta (datetime subtraction truncates to whole days, i.e. floor). -/
def assess_staleness (now : ℚ) (events : List StudentEvent) : ℚ :=
  match events with
  | [] => 1
  | e :: rest =>
      let days_since : ℤ := ⌊now - mostRecentTs e rest⌋
      if days_since > 60 then 9/10
      else if days_since > 30 then 6/10
      else if days_since > 14 then 3/10
      else 1/10

/-- UncertaintyAgent._assess_conflict. -/
def assess_conflict (agent_outputs : List AgentOutput) : ℚ :=
  if agent_outputs.isEmpty ∨ agent_outputs.length < 2 then 0
  else
    let risk_scores := (agent_outputs.filter
      (fun o => o.agent ∉ ["UncertaintyAgent", "EthicsAgent"])).map (fun o => o.risk)
    if risk_scores.length < 2 then 0
    else
      let mean_risk : ℚ := risk_scores.sum / (risk_scores.length : ℚ)
      let variance : ℚ :=
        (risk_scores.map (fun r => (r - mean_risk) ^ 2)).sum / (risk_scores.length : ℚ)
      min (variance * 4) 1

/-- UncertaintyAgent._generate_comment. -/
def generate_comment (sparsity staleness conflict overall : ℚ) : String :=
  let issues :=
    (if sparsity > 5/10 then ["insufficient data"] else []) ++
    (if staleness > 5/10 then ["stale information"] else []) ++
    (if conflict > 4/10 then ["conflicting agent signals"] else [])
  if issues.isEmpty then "Good data quality - confident assessment possible"
  else if overall > 7/10 then
    "HIGH UNCERTAINTY: " ++ String.intercalate ", " issues ++ " - recommend caution"
  else if overall > 5/10 then
    "Moderate uncertainty: " ++ String.intercalate ", " issues
  else
    "Low uncertainty: minor issues with " ++ String.intercalate ", " issues

/-- UncertaintyAgent._get_recommendation. -/
def get_recommendation (uncertainty : ℚ) : String :=
  if uncertainty > 7/10 then
    "DEFER_TO_HUMAN - uncertainty too high for automated decision"
  else if uncertainty > 5/10 then
    "GATHER_MORE_DATA - wait for more events before acting"
  else "PROCEED_WITH_CAUTION - acceptable uncertainty level"

/-- UncertaintyAgent._get_flags. -/
def get_flags (sparsity staleness conflict : ℚ) : List String :=
  (if sparsity > 6/10 then ["SPARSE_DATA"] else []) ++
  (if staleness > 6/10 then ["STALE_DATA"] else []) ++
  (if conflict > 5/10 then ["CONFLICTING_SIGNALS"] else [])

/-- Full return dict of UncertaintyAgent.evaluate, details map included. -/
structure Output where
  agent : String
  risk : ℚ
  confidence : ℚ
  comment : String
  data_sparsity : ℚ
  temporal_staleness : ℚ
  signal_conflict : ℚ
  overall_uncertainty : ℚ
  recommendation : String
  uncertainty_flags : List String
deriving DecidableEq

/-- Projection of the uncertainty dict to the keys the coordinator reads
uniformly from every agent output. -/
def Output.toAgentOutput (o : Output) : AgentOutput :=
  { agent := o.agent, risk := o.risk, confidence := o.confidence, comment := o.comment }

/-- UncertaintyAgent.evaluate (uncertainty_agent.py lines 22-63). The
other_agent_outputs argument is the list of prior domain outputs; the source
guard `if other_agent_outputs` treats an empty list as falsy. -/
def evaluate (now : ℚ) (events : List StudentEvent)
    (other_agent_outputs : List AgentOutput) : Output :=
  let event_count := events.length
  let data_sparsity := assess_sparsity event_count
  let temporal_staleness := assess_staleness now events
  let signal_conflict :=
    if other_agent_outputs.isEmpty then 0 else assess_conflict other_agent_outputs
  let uncertainty := max (max data_sparsity temporal_staleness) signal_conflict
  let risk := uncertainty
  let confidence := 1 - uncertainty
  { agent := "UncertaintyAgent",
    risk := round3 risk,
    confidence := round3 confidence,
    comment := generate_comment data_sparsity temporal_staleness signal_conflict uncertainty,
    data_sparsity := round3 data_sparsity,
    temporal_staleness := round3 temporal_staleness,
    signal_conflict := round3 signal_conflict,
    overall_uncertainty := round3 uncertainty,
    recommendation := get_recommendation uncertainty,
    uncertainty_flags := get_flags data_sparsity temporal_staleness signal_conflict }

end UncertaintyAgent

/-- JSON object returned by the external language-reasoning capability
(llm_core.LLMService.query_agent) for the ethics agent, before
EthicsAgent.evaluate stamps the agent key onto it. A key absent from the
JSON is modelled as none. The coordinator reads the keys veto,
recommendation, comment, risk, veto_reasons and (never, in fact) confidence. -/
structure EthicsLLMResult where
  veto : Option Bool
  veto_reasons : Option (List String)
  recommendation : Option String
  comment : Option String
  risk : Option ℚ
  confidence : Option ℚ
deriving DecidableEq

/-- Ethics response hard-coded in MockLLM.generate (llm_core.py): veto is
false, recommendation URGENT_HUMAN_ESCALATION; there is no comment, risk or
confidence key. This is the only value the shipped LLMService ever produces
for the ethics agent when no API key is configured. -/
def mockEthicsResult : EthicsLLMResult :=
  { veto := some false, veto_reasons := some [],
    recommendation := some "URGENT_HUMAN_ESCALATION",
    comment := none, risk := none, confidence := none }

namespace EthicsAgent

/-- EthicsAgent.evaluate (ethics_agent.py lines 17-49): builds a prompt from
the sibling outputs, hands it to the external LLM, and returns the parsed
LLM JSON with the agent key set. The prompt is text consumed only by the
external capability, so the returned dict is exactly the externally chosen
llmResult (its agent key is represented implicitly: the coordinator treats
this record as carrying agent "EthicsAgent"). -/
def evaluate (llmResult : EthicsLLMResult) : EthicsLLMResult := llmResult

/-- View of the ethics dict under the uniform .get accesses the coordinator
applies to every member of agent_outputs (risk defaults to 0.0, confidence
to 0.5, comment to the empty string). Aggregation skips it because
EthicsAgent has no static weight, and minority detection filters it out by
name, so the defaults are never actually consumed. -/
def asAgentOutput (llmResult : EthicsLLMResult) : AgentOutput :=
  { agent := "EthicsAgent",
    risk := llmResult.risk.getD 0,
    confidence := llmResult.confidence.getD (1/2),
    comment := llmResult.comment.getD "" }

end EthicsAgent

namespace CoordinatorAgent

/-- Static weights dict of CoordinatorAgent._calculate_aggregate_risk
(coordinator.py lines 124-130). Note that UncertaintyAgent carries a static
weight of 0.20 ("Uncertainty as a risk factor"), so it participates in the
weighted aggregation alongside the four domain agents; EthicsAgent does not. -/
def weights (agent_name : String) : Option ℚ :=
  if agent_name = "FinancialAgent" then some (25/100)
  else if agent_name = "AcademicAgent" then some (20/100)
  else if agent_name = "ResidentialAgent" then some (20/100)
  else if agent_name = "LanguageAgent" then some (15/100)
  else if agent_name = "UncertaintyAgent" then some (20/100)
  else none

/-- Loop body of the aggregation loop (coordinator.py lines 135-144): agents
without a static weight are skipped; the others add risk times effective
weight and the effective weight to the two accumulators. -/
def aggStep (acc : ℚ × ℚ) (output : AgentOutput) : ℚ × ℚ :=
  match weights output.agent with
  | some w =>
      let effective_weight := w * output.confidence
      (acc.1 + output.risk * effective_weight, acc.2 + effective_weight)
  | none => acc

/-- CoordinatorAgent._calculate_aggregate_risk (coordinator.py 119-149). -/
def calculate_aggregate_risk (agent_outputs : List AgentOutput) : ℚ :=
  let acc := agent_outputs.foldl aggStep (0, 0)
  if acc.2 = 0 then 0 else acc.1 / acc.2

/-- CoordinatorAgent._make_decision (coordinator.py 151-181). The
agent_outputs parameter is accepted and ignored, as in the source. -/
def make_decision (aggregate_risk : ℚ) (uncertainty : ℚ)
    (agent_outputs : List AgentOutput) : String :=
  if uncertainty > 7/10 then
    if aggregate_risk > 5/10 then "ESCALATE_TO_HUMAN"
    else if aggregate_risk > 3/10 then "WATCH"
    else "NO_ACTION"
  else
    if aggregate_risk > 65/100 then "ESCALATE_TO_HUMAN"
    else if aggregate_risk > 45/100 then "SOFT_OUTREACH"
    else if aggregate_risk > 25/100 then "WATCH"
    else "NO_ACTION"

/-- CoordinatorAgent._generate_justification (coordinator.py 183-208). -/
def generate_justification (decision : String) (aggregate_risk : ℚ)
    (agent_outputs : List AgentOutput) : String :=
  let high_risk_agents := agent_outputs.filter
    (fun o => o.risk > 5/10 ∧ o.agent ∉ ["EthicsAgent", "UncertaintyAgent"])
  let agent_names := high_risk_agents.map (fun a => a.agent.replace "Agent" "")
  if decision = "NO_ACTION" then
    "No intervention warranted (aggregate risk: " ++ fmt2 aggregate_risk ++ ")"
  else if decision = "WATCH" then
    if ¬ high_risk_agents.isEmpty then
      "Monitor situation - elevated " ++ String.intercalate ", " agent_names ++
        " friction (risk: " ++ fmt2 aggregate_risk ++ ")"
    else
      "Low-moderate friction detected (risk: " ++ fmt2 aggregate_risk ++
        ") - watchful waiting"
  else if decision = "SOFT_OUTREACH" then
    "Suggest gentle check-in - notable " ++ String.intercalate ", " agent_names ++
      " barriers (risk: " ++ fmt2 aggregate_risk ++ ")"
  else if decision = "ESCALATE_TO_HUMAN" then
    "Human counselor recommended - significant " ++ String.intercalate ", " agent_names ++
      " friction (risk: " ++ fmt2 aggregate_risk ++ ")"
  else
    "Decision: " ++ decision ++ " (risk: " ++ fmt2 aggregate_risk ++ ")"

/-- Entry of the minority_opinions list (coordinator.py 230-235). -/
structure MinorityOpinion where
  agent : String
  risk : ℚ
  comment : String
  deviation : ℚ
deriving DecidableEq

/-- CoordinatorAgent._identify_minority_opinions (coordinator.py 210-237). -/
def identify_minority_opinions (agent_outputs : List AgentOutput) : List MinorityOpinion :=
  let domain_outputs := agent_outputs.filter
    (fun o => o.agent ∉ ["EthicsAgent", "UncertaintyAgent"])
  if domain_outputs.length < 3 then []
  else
    let risks := domain_outputs.map (fun o => o.risk)
    let mean_risk : ℚ := risks.sum / (risks.length : ℚ)
    (domain_outputs.filter (fun o => |o.risk - mean_risk| > 3/10)).map
      (fun o =>
        { agent := o.agent, risk := o.risk, comment := o.comment,
          deviation := round3 |o.risk - mean_risk| })

/-- Return dict of CoordinatorAgent.analyze_student. agent_outputs holds
the six per-agent dicts projected to their uniformly read keys. -/
structure DecisionResult where
  decision : String
  justification : String
  aggregate_risk : ℚ
  uncertainty_level : ℚ
  ethics_veto : Bool
  veto_reasons : List String
  agent_outputs : List AgentOutput
  minority_opinions : List MinorityOpinion
deriving DecidableEq

/-- CoordinatorAgent.analyze_student (coordinator.py 45-117).

Steps, in source order: run the four domain agents (the language agent can
raise, which aborts the cycle); run the uncertainty agent over the four
domain outputs; run the ethics agent, whose result is the externally chosen
LLM JSON `ethicsLLM`; if the ethics output has veto truthy, return at once
with the ethics recommendation as decision and the ethics risk (default
0.0) as aggregate_risk, reading recommendation and comment with bare
indexing (KeyError if absent); otherwise aggregate, decide and justify.
The datetime.utcnow() instants the agents consult are modelled by `now`. -/
def analyze_student (now : ℚ) (events : List StudentEvent)
    (ethicsLLM : EthicsLLMResult) : Except String DecisionResult :=
  let financial_output := FinancialAgent.evaluate now events
  let academic_output := AcademicAgent.evaluate events
  let residential_output := ResidentialAgent.evaluate now events
  match LanguageAgent.evaluate events with
  | Except.error e => Except.error e
  | Except.ok language_output =>
    let domain_outputs := [financial_output, academic_output,
      residential_output, language_output]
    let uncertainty_output := UncertaintyAgent.evaluate now events domain_outputs
    let ethics_output := EthicsAgent.evaluate ethicsLLM
    let agent_outputs := domain_outputs ++
      [uncertainty_output.toAgentOutput, EthicsAgent.asAgentOutput ethics_output]
    if ethics_output.veto.getD false then
      match ethics_output.recommendation with
      | none => Except.error "KeyError: recommendation"
      | some recommendation =>
        match ethics_output.comment with
        | none => Except.error "KeyError: comment"
        | some comment =>
          Except.ok
            { decision := recommendation,
              justification := comment,
              aggregate_risk := ethics_output.risk.getD 0,
              uncertainty_level := uncertainty_output.risk,
              ethics_veto := true,
              veto_reasons := ethics_output.veto_reasons.getD [],
              agent_outputs := agent_outputs,
              minority_opinions := identify_minority_opinions agent_outputs }
    else
      let aggregate_risk := calculate_aggregate_risk agent_outputs
      let decision := make_decision aggregate_risk uncertainty_output.risk agent_outputs
      let justification := generate_justification decision aggregate_risk agent_outputs
      Except.ok
        { decision := decision,
          justification := justification,
          aggregate_risk := round3 aggregate_risk,
          uncertainty_level := round3 uncertainty_output.risk,
          ethics_veto := false,
          veto_reasons := [],
          agent_outputs := agent_outputs,
          minority_opinions := identify_minority_opinions agent_outputs }

end CoordinatorAgent

/-- agent.ActionStatus (agent.py lines 47-52). -/
inductive ActionStatus where
  | pending
  | executing
  | completed
  | failed
  | skipped
deriving DecidableEq

/-- agent.InterventionType (agent.py lines 27-35). -/
inductive InterventionType where
  | financial_aid
  | peer_support
  | counselor_chat
  | academic_support
  | document_assistance
  | scholarship_match
  | fee_extension
  | emergency_escalation
deriving DecidableEq

/-- Mutable execution state of an agent.AgentAction row: the columns
execute_action reads or writes (agent.py lines 155-174). `id` is the
integer primary key, none until the row has been flushed to the database. -/
structure ActionState where
  id : Option ℕ
  status : ActionStatus
  retry_count : ℕ
  max_retries : ℕ
  success : Option Bool
  error_message : Option String
  depends_on_action_id : Option ℕ
deriving DecidableEq

/-- Outcome of one delegate call inside execute_action: the delegate either
returns a result dict with a success flag, or raises. -/
inductive DelegateOutcome where
  | returns (success : Bool)
  | raises (msg : String)
deriving DecidableEq

namespace InterventionOrchestratorAgent

/-- First phase of execute_action (ioa.py lines 454-456): the action status
is set to EXECUTING and committed before anything else happens. No condition
of any kind is evaluated first; in particular the status of the action named
by depends_on_action_id is never read anywhere in execute_action. -/
def execute_action_start (action : ActionState) : ActionState :=
  { action with status := ActionStatus.executing }

/-- Second phase of execute_action (ioa.py lines 458-487): the delegate
dispatch inside try/except. A returned dict sets COMPLETED when
result.get(success) is truthy and FAILED otherwise; a raised exception sets
FAILED, records the message and increments retry_count. No branch consults
max_retries. -/
def execute_action_finish (action : ActionState) (outcome : DelegateOutcome) :
    ActionState :=
  match outcome with
  | DelegateOutcome.returns s =>
      { action with
          status := if s then ActionStatus.completed else ActionStatus.failed,
          success := some s }
  | DelegateOutcome.raises m =>
      { action with
          status := ActionStatus.failed,
          error_message := some m,
          retry_count := action.retry_count + 1 }

/-- InterventionOrchestratorAgent.execute_action (ioa.py lines 451-489),
as the composition of its two committed phases, with the delegate outcome
injected. -/
def execute_action (action : ActionState) (outcome : DelegateOutcome) : ActionState :=
  execute_action_finish (execute_action_start action) outcome

/-- Repeated invocation of execute_action on the same action with an
injected delegate outcome per invocation. -/
def execute_action_iter (action : ActionState) (outcomes : List DelegateOutcome) :
    ActionState :=
  outcomes.foldl execute_action action

/-- Fields of a freshly constructed (not yet flushed) agent.AgentAction row
that _create_action_sequence sets. The primary key `id` of an unflushed ORM
object is None; tool_parameters is the JSON dict flattened to string pairs. -/
structure NewAction where
  id : Option ℕ
  plan_id : Option ℕ
  action_id : String
  action_type : InterventionType
  sequence_order : ℕ
  title : String
  description : String
  delegated_to : String
  tool_parameters : List (String × String)
  depends_on_action_id : Option ℕ
  scheduled_at : ℚ
deriving DecidableEq

/-- Observation context consumed by _create_action_sequence through
observations[context] (built by _gather_context). -/
structure ObservationContext where
  department : String
  is_first_generation : Bool
  struggling_courses : List String
deriving DecidableEq

/-- Hypothesis fields consumed by _create_action_sequence. -/
structure Hypothesis where
  cause : String
  confidence : ℚ
  intervention_types : List InterventionType
deriving DecidableEq

/-- InterventionOrchestratorAgent._create_action_sequence (ioa.py lines
331-445), returning the list of constructed actions in order. Every
AgentAction is constructed in memory with an unassigned primary key
(id none); the db.add/commit that would assign keys happens only after the
whole list, escalation action included, has been built. The secrets token
in action_id is modelled by the sequence position. hours are converted to
days in scheduled_at. -/
def create_action_sequence (now : ℚ) (plan_id : Option ℕ) (hypothesis : Hypothesis)
    (ctx : ObservationContext) : List NewAction :=
  let actions : List NewAction := []
  let sequence : ℕ := 1
  let (actions, sequence) :=
    if InterventionType.counselor_chat ∈ hypothesis.intervention_types then
      (actions ++ [{
        id := none, plan_id := plan_id,
        action_id := "action_" ++ toString sequence,
        action_type := InterventionType.counselor_chat,
        sequence_order := sequence,
        title := "Anonymous Supportive Check-in",
        description := "Send anonymous message via chat system",
        delegated_to := "counselor_chat_agent",
        tool_parameters := [("message_template", "supportive_checkin"),
                            ("is_anonymous", "True")],
        depends_on_action_id := none,
        scheduled_at := now }], sequence + 1)
    else (actions, sequence)
  let (actions, sequence) :=
    if InterventionType.financial_aid ∈ hypothesis.intervention_types then
      (actions ++ [{
        id := none, plan_id := plan_id,
        action_id := "action_" ++ toString sequence,
        action_type := InterventionType.fee_extension,
        sequence_order := sequence,
        title := "Draft Fee Extension Email",
        description := "Generate fee extension request email for student",
        delegated_to := "document_agent",
        tool_parameters := [("document_type", "fee_extension_request"),
                            ("student_context", ctx.department)],
        depends_on_action_id := none,
        scheduled_at := now + 2/24 }, {
        id := none, plan_id := plan_id,
        action_id := "action_" ++ toString (sequence + 1),
        action_type := InterventionType.scholarship_match,
        sequence_order := sequence + 1,
        title := "Find Relevant Scholarships",
        description := "Match student with 2-3 applicable scholarships",
        delegated_to := "scholarship_agent",
        tool_parameters := [("max_results", "3"),
                            ("student_profile", ctx.department)],
        depends_on_action_id := none,
        scheduled_at := now + 4/24 }], sequence + 2)
    else (actions, sequence)
  let (actions, sequence) :=
    if InterventionType.peer_support ∈ hypothesis.intervention_types then
      (actions ++ [{
        id := none, plan_id := plan_id,
        action_id := "action_" ++ toString sequence,
        action_type := InterventionType.peer_support,
        sequence_order := sequence,
        title := "Match with Senior Mentor",
        description := "Connect student with senior from same branch",
        delegated_to := "peer_match_agent",
        tool_parameters := [("department", ctx.department),
                            ("year_difference", "1"),
                            ("similar_background", toString ctx.is_first_generation)],
        depends_on_action_id := none,
        scheduled_at := now + 6/24 }], sequence + 1)
    else (actions, sequence)
  let (actions, sequence) :=
    if InterventionType.academic_support ∈ hypothesis.intervention_types then
      (actions ++ [{
        id := none, plan_id := plan_id,
        action_id := "action_" ++ toString sequence,
        action_type := InterventionType.academic_support,
        sequence_order := sequence,
        title := "Provide Academic Resources",
        description := "Share relevant study materials and support",
        delegated_to := "academic_support_agent",
        tool_parameters := [("courses", String.intercalate "," ctx.struggling_courses),
                            ("support_type", "tutoring_and_resources")],
        depends_on_action_id := none,
        scheduled_at := now + 8/24 }], sequence + 1)
    else (actions, sequence)
  actions ++ [{
    id := none, plan_id := plan_id,
    action_id := "action_" ++ toString sequence,
    action_type := InterventionType.emergency_escalation,
    sequence_order := sequence,
    title := "Escalate to Counselor (If No Response)",
    description := "Flag for human counselor review if student does not respond",
    delegated_to := "escalation_agent",
    tool_parameters := [("response_deadline_hours", "48"),
                        ("escalation_threshold", "no_response")],
    depends_on_action_id := match actions.head? with
      | some a => a.id
      | none => none,
    scheduled_at := now + 2 }]

end InterventionOrchestratorAgent

/-
  Spec-side sum form of the aggregation loop (claim C3).
-/

/-- Numerator contribution of one agent output in the spec formula
risk times static_weight times confidence (0 for unweighted agents). -/
def riskContribution (o : AgentOutput) : ℚ :=
  match CoordinatorAgent.weights o.agent with
  | some w => o.risk * (w * o.confidence)
  | none => 0

/-- Denominator contribution of one agent output in the spec formula
static_weight times confidence (0 for unweighted agents). -/
def weightContribution (o : AgentOutput) : ℚ :=
  match CoordinatorAgent.weights o.agent with
  | some w => w * o.confidence
  | none => 0

/-- Sigma of risk times effective weight, as the spec formula writes it. -/
def specRiskSum (outputs : List AgentOutput) : ℚ := (outputs.map riskContribution).sum

/-- Sigma of effective weight, as the spec formula writes it. -/
def specWeightSum (outputs : List AgentOutput) : ℚ := (outputs.map weightContribution).sum

/-- Modelled from the spec words of claim C3: a confidence-weighted mean
over the DOMAIN assessments only (financial, academic, residential,
language), i.e. with the uncertainty agent excluded from the weighted set.
This second definition follows the claim sentence and exists solely to be
compared with CoordinatorAgent.calculate_aggregate_risk, whose weights dict
also contains UncertaintyAgent. -/
def domainOnlyWeights (agent_name : String) : Option ℚ :=
  if agent_name = "FinancialAgent" then some (25/100)
  else if agent_name = "AcademicAgent" then some (20/100)
  else if agent_name = "ResidentialAgent" then some (20/100)
  else if agent_name = "LanguageAgent" then some (15/100)
  else none

/-- Modelled from the spec words of claim C3: the weighted-mean formula
restricted to domain assessments (see domainOnlyWeights). -/
def spec_domain_only_aggregate (outputs : List AgentOutput) : ℚ :=
  let ws := (outputs.map (fun o =>
    match domainOnlyWeights o.agent with
    | some w => o.risk * (w * o.confidence)
    | none => 0)).sum
  let tw := (outputs.map (fun o =>
    match domainOnlyWeights o.agent with
    | some w => w * o.confidence
    | none => 0)).sum
  if tw = 0 then 0 else ws / tw

/-- C3 counterexample input: a domain output (FinancialAgent, risk 0) next
to the uncertainty output (risk 1), all confidences 1. -/
def outputsC3 : List AgentOutput :=
  [{ agent := "FinancialAgent", risk := 0, confidence := 1, comment := "" },
   { agent := "UncertaintyAgent", risk := 1, confidence := 1, comment := "" }]

/-- Interventionism order on the four postures the coordinator can emit
(NO_ACTION < WATCH < SOFT_OUTREACH < ESCALATE_TO_HUMAN). -/
def postureRank (p : String) : ℕ :=
  if p = "NO_ACTION" then 0
  else if p = "WATCH" then 1
  else if p = "SOFT_OUTREACH" then 2
  else if p = "ESCALATE_TO_HUMAN" then 3
  else 0

deriving instance DecidableEq for Except

/-- Externally chosen ethics LLM JSON with veto true and a non-human-routing
recommendation (SOFT_OUTREACH is one of the recommendations the ethics
prompt itself offers to the LLM). -/
def ethVetoSoft : EthicsLLMResult :=
  { veto := some true, veto_reasons := some ["stigmatization risk"],
    recommendation := some "SOFT_OUTREACH", comment := some "needs human warmth",
    risk := some (2/10), confidence := none }

/-- Externally chosen ethics LLM JSON with veto true and no risk key. -/
def ethVetoNoRisk : EthicsLLMResult :=
  { veto := some true, veto_reasons := some ["epistemic humility"],
    recommendation := some "URGENT_HUMAN_ESCALATION", comment := some "too sparse",
    risk := none, confidence := none }

/-- Externally chosen ethics LLM JSON with veto true and risk 0.9. -/
def ethVetoHighRisk : EthicsLLMResult :=
  { veto := some true, veto_reasons := some ["epistemic humility"],
    recommendation := some "URGENT_HUMAN_ESCALATION", comment := some "too sparse",
    risk := some (9/10), confidence := none }

/-- Fallback decision value used only to destructure concrete runs. -/
def emptyDecision : CoordinatorAgent.DecisionResult :=
  { decision := "", justification := "", aggregate_risk := 0,
    uncertainty_level := 0, ethics_veto := false, veto_reasons := [],
    agent_outputs := [], minority_opinions := [] }

/-- Concrete decision returned by analyze_student on no events under the
vetoing SOFT_OUTREACH ethics output. -/
def vetoSoftDecision : CoordinatorAgent.DecisionResult :=
  match CoordinatorAgent.analyze_student 0 [] ethVetoSoft with
  | Except.ok d => d
  | Except.error _ => emptyDecision

/-- Concrete decision returned by analyze_student on no events under the
vetoing high-risk ethics output. -/
def vetoHighRiskDecision : CoordinatorAgent.DecisionResult :=
  match CoordinatorAgent.analyze_student 0 [] ethVetoHighRisk with
  | Except.ok d => d
  | Except.error _ => emptyDecision

/-- Flushed action row with primary key 1, still PENDING. -/
def depAction : ActionState :=
  { id := some 1, status := ActionStatus.pending, retry_count := 0,
    max_retries := 3, success := none, error_message := none,
    depends_on_action_id := none }

/-- Flushed action row with primary key 2 whose depends_on_action_id
references action 1. -/
def blockedAction : ActionState :=
  { id := some 2, status := ActionStatus.pending, retry_count := 0,
    max_retries := 3, success := none, error_message := none,
    depends_on_action_id := some 1 }

/-- Fresh action with the model default max_retries = 3 (agent.py 162). -/
def retriableAction : ActionState :=
  { id := some 3, status := ActionStatus.pending, retry_count := 0,
    max_retries := 3, success := none, error_message := none,
    depends_on_action_id := none }

/-
  Helper lemmas about the Python rounding model.
-/

theorem pyRound_mem (q : ℚ) : pyRound q = ⌊q⌋ ∨ pyRound q = ⌊q⌋ + 1 := by
  unfold pyRound
  split_ifs <;> simp

theorem le_pyRound (q : ℚ) : ⌊q⌋ ≤ pyRound q := by
  rcases pyRound_mem q with h | h <;> omega

theorem pyRound_le {q : ℚ} {n : ℤ} (h : q ≤ (n : ℚ)) : pyRound q ≤ n := by
  have hfn : ⌊q⌋ ≤ n := by
    have := Int.floor_le_floor h
    rwa [Int.floor_intCast] at this
  have hfl : (⌊q⌋ : ℚ) ≤ q := Int.floor_le q
  unfold pyRound
  split_ifs with h1 h2 h3
  · exact hfn
  · have hlt : (⌊q⌋ : ℚ) < (n : ℚ) := by linarith
    have : ⌊q⌋ < n := by exact_mod_cast hlt
    omega
  · exact hfn
  · have hge : (1 : ℚ)/2 ≤ q - ⌊q⌋ := le_of_not_lt h1
    have hlt : (⌊q⌋ : ℚ) < (n : ℚ) := by linarith
    have : ⌊q⌋ < n := by exact_mod_cast hlt
    omega

theorem le_pyRound_of_le {q : ℚ} {n : ℤ} (h : (n : ℚ) ≤ q) : n ≤ pyRound q := by
  have hfn : n ≤ ⌊q⌋ := Int.le_floor.mpr h
  have := le_pyRound q
  omega

theorem pyRound_intCast (n : ℤ) : pyRound (n : ℚ) = n := by
  unfold pyRound
  rw [Int.floor_intCast]
  have : (n : ℚ) - n = 0 := by ring
  rw [this]
  norm_num

theorem pyRound_compl (s : ℚ) : pyRound (1000 - s) = 1000 - pyRound s := by
  have hfl : (⌊s⌋ : ℚ) ≤ s := Int.floor_le s
  have hfu : s < ⌊s⌋ + 1 := Int.lt_floor_add_one s
  by_cases h0 : s = (⌊s⌋ : ℚ)
  · rw [h0]
    have h1 : (1000 : ℚ) - (⌊s⌋ : ℚ) = ((1000 - ⌊s⌋ : ℤ) : ℚ) := by push_cast; ring
    rw [h1, pyRound_intCast, pyRound_intCast]
  · have hr0 : (⌊s⌋ : ℚ) < s := lt_of_le_of_ne hfl (fun h => h0 h.symm)
    have hfloor : ⌊(1000 : ℚ) - s⌋ = 999 - ⌊s⌋ := by
      rw [Int.floor_eq_iff]
      constructor
      · push_cast; linarith
      · push_cast; linarith
    unfold pyRound
    rw [hfloor]
    split_ifs with a1 a2 a3 b1 b2 b3 <;>
      push_cast at * <;>
      first
        | omega
        | linarith

theorem round3_nonneg {q : ℚ} (h : 0 ≤ q) : 0 ≤ round3 q := by
  unfold round3
  have h1 : (0 : ℤ) ≤ pyRound (q * 1000) := by
    have h2 : ((0 : ℤ) : ℚ) ≤ q * 1000 := by push_cast; nlinarith
    exact le_pyRound_of_le h2
  have h3 : (0 : ℚ) ≤ (pyRound (q * 1000) : ℚ) := by exact_mod_cast h1
  exact div_nonneg h3 (by norm_num)

theorem round3_le_one {q : ℚ} (h : q ≤ 1) : round3 q ≤ 1 := by
  unfold round3
  have h1 : pyRound (q * 1000) ≤ 1000 := pyRound_le (by push_cast; nlinarith)
  have h2 : (pyRound (q * 1000) : ℚ) ≤ 1000 := by exact_mod_cast h1
  rw [div_le_one (by norm_num)]
  exact h2

theorem round3_add_compl (q : ℚ) : round3 q + round3 (1 - q) = 1 := by
  unfold round3
  have h : (1 - q) * 1000 = 1000 - q * 1000 := by ring
  rw [h, pyRound_compl]
  push_cast
  ring

/-
  Factor bounds for the uncertainty agent.
-/

theorem assess_sparsity_bounds (n : ℕ) :
    0 ≤ UncertaintyAgent.assess_sparsity n ∧ UncertaintyAgent.assess_sparsity n ≤ 1 := by
  simp only [UncertaintyAgent.assess_sparsity]
  split_ifs <;> norm_num

theorem assess_staleness_bounds (now : ℚ) (events : List StudentEvent) :
    0 ≤ UncertaintyAgent.assess_staleness now events ∧
      UncertaintyAgent.assess_staleness now events ≤ 1 := by
  cases events with
  | nil => simp [UncertaintyAgent.assess_staleness]
  | cons e rest =>
      simp only [UncertaintyAgent.assess_staleness]
      split_ifs <;> norm_num

theorem assess_conflict_nonneg (outs : List AgentOutput) :
    0 ≤ UncertaintyAgent.assess_conflict outs := by
  simp only [UncertaintyAgent.assess_conflict]
  split_ifs with h1 h2
  · norm_num
  · norm_num
  · apply le_min _ (by norm_num)
    apply mul_nonneg _ (by norm_num)
    apply div_nonneg
    · apply List.sum_nonneg
      intro x hx
      simp only [List.mem_map] at hx
      obtain ⟨r, _, rfl⟩ := hx
      positivity
    · positivity

theorem assess_conflict_le_one (outs : List AgentOutput) :
    UncertaintyAgent.assess_conflict outs ≤ 1 := by
  simp only [UncertaintyAgent.assess_conflict]
  split_ifs with h1 h2
  · norm_num
  · norm_num
  · exact min_le_right _ _

/-- C8: for every event list and every sibling-output list,
UncertaintyAgent.evaluate computes the overall uncertainty as the maximum of
the three factors (data sparsity, temporal staleness, signal conflict), each
factor lying in [0,1]; the returned risk and the overall_uncertainty detail
both equal that maximum (rounded to three decimals for output, exactly as
the source rounds them), the returned confidence equals 1 minus that
uncertainty (rounded the same way), and the returned risk and confidence sum
exactly to 1, so they are complements by construction. -/
theorem C8_uncertainty_max_of_factors_and_complement (now : ℚ)
    (events : List StudentEvent) (outs : List AgentOutput) :
    let s := UncertaintyAgent.assess_sparsity events.length
    let t := UncertaintyAgent.assess_staleness now events
    let c := if outs.isEmpty then (0 : ℚ) else UncertaintyAgent.assess_conflict outs
    let u := max (max s t) c
    let o := UncertaintyAgent.evaluate now events outs
    (0 ≤ s ∧ s ≤ 1) ∧ (0 ≤ t ∧ t ≤ 1) ∧ (0 ≤ c ∧ c ≤ 1) ∧
    o.risk = round3 u ∧ o.overall_uncertainty = round3 u ∧
    o.confidence = round3 (1 - u) ∧ o.risk + o.confidence = 1 := by
  intro s t c u o
  have hs := assess_sparsity_bounds events.length
  have ht := assess_staleness_bounds now events
  have hc : 0 ≤ (if outs.isEmpty then (0 : ℚ) else UncertaintyAgent.assess_conflict outs) ∧
      (if outs.isEmpty then (0 : ℚ) else UncertaintyAgent.assess_conflict outs) ≤ 1 := by
    split_ifs with h
    · norm_num
    · exact ⟨assess_conflict_nonneg outs, assess_conflict_le_one outs⟩
  have hrisk : o.risk = round3 u := by
    simp only [o, u, s, t, c, UncertaintyAgent.evaluate]
  have hoverall : o.overall_uncertainty = round3 u := by
    simp only [o, u, s, t, c, UncertaintyAgent.evaluate]
  have hconf : o.confidence = round3 (1 - u) := by
    simp only [o, u, s, t, c, UncertaintyAgent.evaluate]
  refine ⟨hs, ht, hc, hrisk, hoverall, hconf, ?_⟩
  rw [hrisk, hconf]
  exact round3_add_compl u

/-
  Bounds for the domain scorers cited by the spec (financial, residential).
-/

theorem avg_severity_bounds (l : List StudentEvent) (hl : l ≠ [])
    (hsev : ∀ e ∈ l, 0 ≤ e.severity ∧ e.severity ≤ 1) :
    0 ≤ (l.map (fun e => e.severity)).sum / (l.length : ℚ) ∧
      (l.map (fun e => e.severity)).sum / (l.length : ℚ) ≤ 1 := by
  have hlen : 0 < l.length := List.length_pos.mpr hl
  have hlenQ : (0 : ℚ) < (l.length : ℚ) := by exact_mod_cast hlen
  have hsum_nonneg : 0 ≤ (l.map (fun e => e.severity)).sum := by
    apply List.sum_nonneg
    intro x hx
    simp only [List.mem_map] at hx
    obtain ⟨e, he, rfl⟩ := hx
    exact (hsev e he).1
  have hsum_le : (l.map (fun e => e.severity)).sum ≤ (l.length : ℚ) := by
    have h1 := List.sum_le_card_nsmul (l.map (fun e => e.severity)) 1 ?_
    · simp only [List.length_map, nsmul_eq_mul, mul_one] at h1
      exact h1
    · intro x hx
      simp only [List.mem_map] at hx
      obtain ⟨e, he, rfl⟩ := hx
      exact (hsev e he).2
  exact ⟨div_nonneg hsum_nonneg hlenQ.le, (div_le_one hlenQ).mpr hsum_le⟩

theorem financial_evaluate_bounds (now : ℚ) (events : List StudentEvent)
    (hsev : ∀ e ∈ events, 0 ≤ e.severity ∧ e.severity ≤ 1) :
    0 ≤ (FinancialAgent.evaluate now events).risk ∧
    (FinancialAgent.evaluate now events).risk ≤ 1 ∧
    0 ≤ (FinancialAgent.evaluate now events).confidence ∧
    (FinancialAgent.evaluate now events).confidence ≤ 1 := by
  simp only [FinancialAgent.evaluate]
  split_ifs with h
  · norm_num
  · have hne : events.filter (fun e => e.event_type ∈ FinancialAgent.financialTypes) ≠ [] := by
      intro hnil
      rw [hnil] at h
      simp at h
    set fe := events.filter (fun e => e.event_type ∈ FinancialAgent.financialTypes) with hfe
    have hlen : 0 < fe.length := List.length_pos.mpr hne
    have hlenQ : (0 : ℚ) < (fe.length : ℚ) := by exact_mod_cast hlen
    have hone : (1 : ℚ) ≤ (fe.length : ℚ) := by exact_mod_cast hlen
    have hsub : ∀ e ∈ fe, 0 ≤ e.severity ∧ e.severity ≤ 1 := by
      intro e he
      exact hsev e (List.mem_of_mem_filter he)
    have havg := avg_severity_bounds fe hne hsub
    have hfreq : 0 ≤ min ((fe.length : ℚ) / 5) 1 ∧ min ((fe.length : ℚ) / 5) 1 ≤ 1 := by
      constructor
      · exact le_min (by positivity) (by norm_num)
      · exact min_le_right _ _
    have hmax : max (fe.length : ℚ) 1 = (fe.length : ℚ) := max_eq_left hone
    have hrec :
        0 ≤ ((fe.filter (fun e => FinancialAgent.is_recent now e 30)).length : ℚ) /
            max (fe.length : ℚ) 1 ∧
        ((fe.filter (fun e => FinancialAgent.is_recent now e 30)).length : ℚ) /
            max (fe.length : ℚ) 1 ≤ 1 := by
      rw [hmax]
      constructor
      · positivity
      · rw [div_le_one hlenQ]
        exact_mod_cast List.length_filter_le _ fe
    refine ⟨round3_nonneg (by nlinarith [hfreq.1, hfreq.2, hrec.1, hrec.2, havg.1, havg.2]),
            round3_le_one (by nlinarith [hfreq.1, hfreq.2, hrec.1, hrec.2, havg.1, havg.2]),
            round3_nonneg ?_, round3_le_one ?_⟩
    · apply le_min _ (by norm_num)
      positivity
    · calc min (6/10 + (fe.length : ℚ) * (5/100)) (95/100) ≤ 95/100 := min_le_right _ _
        _ ≤ 1 := by norm_num

theorem residential_evaluate_bounds (now : ℚ) (events : List StudentEvent) :
    0 ≤ (ResidentialAgent.evaluate now events).risk ∧
    (ResidentialAgent.evaluate now events).risk ≤ 1 ∧
    0 ≤ (ResidentialAgent.evaluate now events).confidence ∧
    (ResidentialAgent.evaluate now events).confidence ≤ 1 := by
  simp only [ResidentialAgent.evaluate]
  split_ifs with h
  · norm_num
  · have hne : events.filter (fun e => e.event_type ∈ ResidentialAgent.residentialTypes) ≠ [] := by
      intro hnil
      rw [hnil] at h
      simp at h
    set re := events.filter (fun e => e.event_type ∈ ResidentialAgent.residentialTypes) with hre
    have hlen : 0 < re.length := List.length_pos.mpr hne
    have hlenQ : (0 : ℚ) < (re.length : ℚ) := by exact_mod_cast hlen
    have hone : (1 : ℚ) ≤ (re.length : ℚ) := by exact_mod_cast hlen
    have hmax : max (re.length : ℚ) 1 = (re.length : ℚ) := max_eq_left hone
    have hbase : 0 ≤ min ((re.length : ℚ) / 4) (85/100) := le_min (by positivity) (by norm_num)
    have hmult : (0 : ℚ) ≤ 1 + ((re.filter
        (fun e => e.event_type ∈ ResidentialAgent.basicNeedsTypes)).length : ℚ) * (2/10) := by
      positivity
    have hrec : (0 : ℚ) ≤ ((re.filter (fun e => now - e.timestamp ≤ 21)).length : ℚ) /
        max (re.length : ℚ) 1 := by
      rw [hmax]
      positivity
    refine ⟨round3_nonneg (le_min (by positivity) (by norm_num)),
            round3_le_one (min_le_right _ _),
            round3_nonneg (le_min (by positivity) (by norm_num)), round3_le_one ?_⟩
    calc min (55/100 + (re.length : ℚ) * (6/100)) (88/100) ≤ 88/100 := min_le_right _ _
      _ ≤ 1 := by norm_num

/-- C9: for every event list whose severities lie in [0,1], the cited domain
scorers (FinancialAgent, ResidentialAgent) return risk and confidence in
[0,1]; and whenever a scorer's filtered domain event set is empty it returns
the fixed no-signal assessment with risk 0 and confidence at least 0.7
(financial 0.9, residential 0.8). -/
theorem C9_financial_residential_scorer_bounds (now : ℚ) (events : List StudentEvent)
    (hsev : ∀ e ∈ events, 0 ≤ e.severity ∧ e.severity ≤ 1) :
    (0 ≤ (FinancialAgent.evaluate now events).risk ∧
     (FinancialAgent.evaluate now events).risk ≤ 1 ∧
     0 ≤ (FinancialAgent.evaluate now events).confidence ∧
     (FinancialAgent.evaluate now events).confidence ≤ 1) ∧
    (0 ≤ (ResidentialAgent.evaluate now events).risk ∧
     (ResidentialAgent.evaluate now events).risk ≤ 1 ∧
     0 ≤ (ResidentialAgent.evaluate now events).confidence ∧
     (ResidentialAgent.evaluate now events).confidence ≤ 1) ∧
    ((events.filter (fun e => e.event_type ∈ FinancialAgent.financialTypes)).isEmpty = true →
      (FinancialAgent.evaluate now events).risk = 0 ∧
      7/10 ≤ (FinancialAgent.evaluate now events).confidence) ∧
    ((events.filter (fun e => e.event_type ∈ ResidentialAgent.residentialTypes)).isEmpty = true →
      (ResidentialAgent.evaluate now events).risk = 0 ∧
      7/10 ≤ (ResidentialAgent.evaluate now events).confidence) := by
  refine ⟨financial_evaluate_bounds now events hsev,
          residential_evaluate_bounds now events, ?_, ?_⟩
  · intro hf
    simp only [FinancialAgent.evaluate, hf, if_true]
    norm_num
  · intro hr
    simp only [ResidentialAgent.evaluate, hr, if_true]
    norm_num

/-- Witness for C9 at the concrete input now = 0, events = []. -/
theorem C9_financial_residential_scorer_bounds_witness :
    (FinancialAgent.evaluate 0 []).risk = 0 ∧
    7/10 ≤ (FinancialAgent.evaluate 0 []).confidence ∧
    (ResidentialAgent.evaluate 0 []).risk = 0 ∧
    (ResidentialAgent.evaluate 0 []).confidence ≤ 1 := by
  have main := C9_financial_residential_scorer_bounds 0 [] (by simp)
  exact ⟨(main.2.2.1 (by decide)).1, (main.2.2.1 (by decide)).2,
         (main.2.2.2 (by decide)).1, main.2.1.2.2.2⟩


theorem weights_pos (s : String) (w : ℚ) (h : CoordinatorAgent.weights s = some w) :
    0 < w := by
  simp only [CoordinatorAgent.weights] at h
  split_ifs at h <;> (cases h; norm_num)

theorem aggStep_foldl (l : List AgentOutput) (a b : ℚ) :
    l.foldl CoordinatorAgent.aggStep (a, b) = (a + specRiskSum l, b + specWeightSum l) := by
  induction l generalizing a b with
  | nil => simp [specRiskSum, specWeightSum]
  | cons x xs ih =>
      simp only [List.foldl_cons, specRiskSum, specWeightSum, List.map_cons, List.sum_cons]
      cases hw : CoordinatorAgent.weights x.agent with
      | none =>
          have hstep : CoordinatorAgent.aggStep (a, b) x = (a, b) := by
            simp [CoordinatorAgent.aggStep, hw]
          rw [hstep, ih]
          simp [specRiskSum, specWeightSum, riskContribution, weightContribution, hw]
      | some w =>
          have hstep : CoordinatorAgent.aggStep (a, b) x =
              (a + x.risk * (w * x.confidence), b + w * x.confidence) := by
            simp [CoordinatorAgent.aggStep, hw]
          rw [hstep, ih]
          simp only [specRiskSum, specWeightSum, riskContribution, weightContribution, hw,
            Prod.mk.injEq]
          exact ⟨by ring, by ring⟩

theorem specSums_bounds (m M : ℚ) (l : List AgentOutput)
    (h : ∀ o ∈ l, (CoordinatorAgent.weights o.agent).isSome = true →
        m ≤ o.risk ∧ o.risk ≤ M ∧ 0 ≤ o.confidence) :
    0 ≤ specWeightSum l ∧ m * specWeightSum l ≤ specRiskSum l ∧
      specRiskSum l ≤ M * specWeightSum l := by
  induction l with
  | nil => simp [specRiskSum, specWeightSum]
  | cons x xs ih =>
      have hx := h x (List.mem_cons_self x xs)
      have hxs := ih (fun o ho hs => h o (List.mem_cons_of_mem x ho) hs)
      have hcontrib : 0 ≤ weightContribution x ∧
          m * weightContribution x ≤ riskContribution x ∧
          riskContribution x ≤ M * weightContribution x := by
        cases hw : CoordinatorAgent.weights x.agent with
        | none => simp [weightContribution, riskContribution, hw]
        | some w =>
            have hwpos := weights_pos _ _ hw
            have hx2 := hx (by simp [hw])
            simp only [weightContribution, riskContribution, hw]
            have hwc : 0 ≤ w * x.confidence := mul_nonneg hwpos.le hx2.2.2
            refine ⟨hwc, ?_, ?_⟩
            · nlinarith [hx2.1]
            · nlinarith [hx2.2.1]
      have e1 : specWeightSum (x :: xs) = weightContribution x + specWeightSum xs := by
        simp [specWeightSum]
      have e2 : specRiskSum (x :: xs) = riskContribution x + specRiskSum xs := by
        simp [specRiskSum]
      rw [e1, e2]
      refine ⟨by linarith [hcontrib.1, hxs.1], ?_, ?_⟩
      · have e3 : m * (weightContribution x + specWeightSum xs) =
            m * weightContribution x + m * specWeightSum xs := by ring
        rw [e3]
        linarith [hcontrib.2.1, hxs.2.1]
      · have e4 : M * (weightContribution x + specWeightSum xs) =
            M * weightContribution x + M * specWeightSum xs := by ring
        rw [e4]
        linarith [hcontrib.2.2, hxs.2.2]

/-- C3 amended: with no ethics veto, aggregate_risk is the confidence
weighted mean over the agents carrying a static weight - the four domain
agents AND the uncertainty agent (weights 0.25/0.20/0.20/0.15/0.20), not
the domain assessments only - computed as Sigma(risk x static_weight x
confidence) / Sigma(static_weight x confidence), or 0.0 when the total
effective weight is 0; and whenever every weighted output has nonnegative
confidence and the total effective weight is positive, the result lies
within [m, M] for any m, M enclosing the risks of all WEIGHTED outputs
(the uncertainty risk included, not only the domain risks). -/
theorem C3_aggregate_confidence_weighted_mean_bounds (outputs : List AgentOutput)
    (m M : ℚ)
    (h : ∀ o ∈ outputs, (CoordinatorAgent.weights o.agent).isSome = true →
        m ≤ o.risk ∧ o.risk ≤ M ∧ 0 ≤ o.confidence)
    (hpos : 0 < specWeightSum outputs) :
    CoordinatorAgent.calculate_aggregate_risk outputs =
      specRiskSum outputs / specWeightSum outputs ∧
    m ≤ CoordinatorAgent.calculate_aggregate_risk outputs ∧
    CoordinatorAgent.calculate_aggregate_risk outputs ≤ M := by
  have hbounds := specSums_bounds m M outputs h
  have hval : CoordinatorAgent.calculate_aggregate_risk outputs =
      specRiskSum outputs / specWeightSum outputs := by
    simp only [CoordinatorAgent.calculate_aggregate_risk, aggStep_foldl outputs 0 0]
    rw [if_neg (by simpa using hpos.ne.symm)]
    simp
  refine ⟨hval, ?_, ?_⟩
  · rw [hval, le_div_iff₀ hpos]
    linarith [hbounds.2.1]
  · rw [hval, div_le_iff₀ hpos]
    linarith [hbounds.2.2]


/-- C3 counterexample: the coordinator aggregates to 4/9 on outputsC3,
while the weighted mean over the domain assessments only is 0, and every
domain risk is 0 so the claimed bound [min domain risk, max domain risk]
would force 0: the claim as stated is false on the code because the
weights dict also contains UncertaintyAgent. -/
theorem C3_counterexample :
    CoordinatorAgent.calculate_aggregate_risk outputsC3 = 4/9 ∧
    spec_domain_only_aggregate outputsC3 = 0 ∧ ¬((4 : ℚ)/9 ≤ 0) := by
  refine ⟨?_, ?_, by norm_num⟩
  · simp +decide [CoordinatorAgent.calculate_aggregate_risk, CoordinatorAgent.aggStep,
      CoordinatorAgent.weights, outputsC3]
    norm_num
  · simp +decide [spec_domain_only_aggregate, domainOnlyWeights, outputsC3]

/-- Witness for C3 at a concrete one-output list with m = M = 1/2. -/
theorem C3_aggregate_confidence_weighted_mean_bounds_witness :
    CoordinatorAgent.calculate_aggregate_risk
        [{ agent := "FinancialAgent", risk := 1/2, confidence := 1, comment := "" }] =
      specRiskSum [{ agent := "FinancialAgent", risk := 1/2, confidence := 1, comment := "" }] /
      specWeightSum [{ agent := "FinancialAgent", risk := 1/2, confidence := 1, comment := "" }] ∧
    1/2 ≤ CoordinatorAgent.calculate_aggregate_risk
        [{ agent := "FinancialAgent", risk := 1/2, confidence := 1, comment := "" }] ∧
    CoordinatorAgent.calculate_aggregate_risk
        [{ agent := "FinancialAgent", risk := 1/2, confidence := 1, comment := "" }] ≤ 1/2 :=
  C3_aggregate_confidence_weighted_mean_bounds
    [{ agent := "FinancialAgent", risk := 1/2, confidence := 1, comment := "" }]
    (1/2) (1/2)
    (by simp)
    (by
      simp +decide [specWeightSum, weightContribution, CoordinatorAgent.weights])


/-- C4 counterexample: at aggregate_risk 0.28 the normal thresholds select
WATCH, but high uncertainty (0.8 > 0.7) selects NO_ACTION, because the high
uncertainty branch raises the watch cut point from 0.25 to 0.3. High
uncertainty turned a WATCH into a NO_ACTION, strictly less interventionist,
refuting the claim as stated. -/
theorem C4_counterexample :
    CoordinatorAgent.make_decision (28/100) (8/10) [] = "NO_ACTION" ∧
    CoordinatorAgent.make_decision (28/100) (1/2) [] = "WATCH" ∧
    postureRank "NO_ACTION" < postureRank "WATCH" := by
  refine ⟨?_, ?_, by decide⟩ <;> norm_num [CoordinatorAgent.make_decision]

/-- C4 amended: high uncertainty (> 0.7) lowers only the escalate cut point
(0.65 to 0.5): any aggregate_risk that escalates under the normal thresholds
still escalates, and every risk above 0.5 is at least as interventionist as
under the normal thresholds; but the watch cut point is RAISED (0.25 to 0.3)
and SOFT_OUTREACH is removed, so the posture under high uncertainty is
strictly less interventionist than the normal one exactly when the risk lies
in (0.25, 0.3] or in (0.45, 0.5]: on (0.25, 0.3] the normal WATCH becomes
NO_ACTION, and on (0.45, 0.5] the normal SOFT_OUTREACH becomes WATCH. -/
theorem C4_high_uncertainty_escalation_bias (r u u' : ℚ)
    (hu : 7/10 < u) (hu' : ¬ 7/10 < u') (outs outs' : List AgentOutput) :
    (CoordinatorAgent.make_decision r u' outs' = "ESCALATE_TO_HUMAN" →
      CoordinatorAgent.make_decision r u outs = "ESCALATE_TO_HUMAN") ∧
    (5/10 < r → postureRank (CoordinatorAgent.make_decision r u' outs') ≤
      postureRank (CoordinatorAgent.make_decision r u outs)) ∧
    ((25/100 < r ∧ r ≤ 3/10) →
      CoordinatorAgent.make_decision r u' outs' = "WATCH" ∧
      CoordinatorAgent.make_decision r u outs = "NO_ACTION") ∧
    ((45/100 < r ∧ r ≤ 1/2) →
      CoordinatorAgent.make_decision r u' outs' = "SOFT_OUTREACH" ∧
      CoordinatorAgent.make_decision r u outs = "WATCH") ∧
    (postureRank (CoordinatorAgent.make_decision r u outs) <
        postureRank (CoordinatorAgent.make_decision r u' outs') ↔
      (25/100 < r ∧ r ≤ 3/10) ∨ (45/100 < r ∧ r ≤ 1/2)) := by
  have h1 : CoordinatorAgent.make_decision r u' outs' = "ESCALATE_TO_HUMAN" →
      CoordinatorAgent.make_decision r u outs = "ESCALATE_TO_HUMAN" := by
    simp only [CoordinatorAgent.make_decision, if_pos hu, if_neg hu']
    split_ifs <;> simp_all [postureRank] <;> linarith
  have h2 : 5/10 < r → postureRank (CoordinatorAgent.make_decision r u' outs') ≤
      postureRank (CoordinatorAgent.make_decision r u outs) := by
    simp only [CoordinatorAgent.make_decision, if_pos hu, if_neg hu']
    split_ifs <;> simp_all [postureRank]
  have h4 : (25/100 < r ∧ r ≤ 3/10) →
      CoordinatorAgent.make_decision r u' outs' = "WATCH" ∧
      CoordinatorAgent.make_decision r u outs = "NO_ACTION" := by
    rintro ⟨ha, hb⟩
    constructor <;>
      simp only [CoordinatorAgent.make_decision, if_pos hu, if_neg hu'] <;>
      split_ifs <;> first | rfl | (exfalso; linarith)
  have h5 : (45/100 < r ∧ r ≤ 1/2) →
      CoordinatorAgent.make_decision r u' outs' = "SOFT_OUTREACH" ∧
      CoordinatorAgent.make_decision r u outs = "WATCH" := by
    rintro ⟨ha, hb⟩
    constructor <;>
      simp only [CoordinatorAgent.make_decision, if_pos hu, if_neg hu'] <;>
      split_ifs <;> first | rfl | (exfalso; linarith)
  refine ⟨h1, h2, h4, h5, ?_⟩
  constructor
  · intro hlt
    by_cases hA : 25/100 < r ∧ r ≤ 3/10
    · exact Or.inl hA
    by_cases hB : 45/100 < r ∧ r ≤ 1/2
    · exact Or.inr hB
    exfalso
    push_neg at hA hB
    revert hlt
    simp only [CoordinatorAgent.make_decision, if_pos hu, if_neg hu']
    split_ifs <;> simp [postureRank] <;>
      first
        | linarith
        | exact absurd (hA (by linarith)) (by linarith)
        | exact absurd (hB (by linarith)) (by linarith)
  · rintro (hab | hab)
    · rw [(h4 hab).1, (h4 hab).2]
      simp [postureRank]
    · rw [(h5 hab).1, (h5 hab).2]
      simp [postureRank]

/-- Witness for C4 at r = 0.28, u = 0.8, u-normal = 0. -/
theorem C4_high_uncertainty_escalation_bias_witness :
    (CoordinatorAgent.make_decision (28/100) 0 [] = "ESCALATE_TO_HUMAN" →
      CoordinatorAgent.make_decision (28/100) (8/10) [] = "ESCALATE_TO_HUMAN") ∧
    (5/10 < (28 : ℚ)/100 → postureRank (CoordinatorAgent.make_decision (28/100) 0 []) ≤
      postureRank (CoordinatorAgent.make_decision (28/100) (8/10) [])) ∧
    ((25/100 < (28 : ℚ)/100 ∧ (28 : ℚ)/100 ≤ 3/10) →
      CoordinatorAgent.make_decision (28/100) 0 [] = "WATCH" ∧
      CoordinatorAgent.make_decision (28/100) (8/10) [] = "NO_ACTION") ∧
    ((45/100 < (28 : ℚ)/100 ∧ (28 : ℚ)/100 ≤ 1/2) →
      CoordinatorAgent.make_decision (28/100) 0 [] = "SOFT_OUTREACH" ∧
      CoordinatorAgent.make_decision (28/100) (8/10) [] = "WATCH") ∧
    (postureRank (CoordinatorAgent.make_decision (28/100) (8/10) []) <
        postureRank (CoordinatorAgent.make_decision (28/100) 0 []) ↔
      (25/100 < (28 : ℚ)/100 ∧ (28 : ℚ)/100 ≤ 3/10) ∨
      (45/100 < (28 : ℚ)/100 ∧ (28 : ℚ)/100 ≤ 1/2)) :=
  C4_high_uncertainty_escalation_bias (28/100) (8/10) 0 (by norm_num) (by norm_num) [] []

/-
  Claims C1, C2: the ethics-veto branch of the coordinator.
-/

/-- C1 counterexample: with the external ethics output vetoing and
recommending SOFT_OUTREACH (a recommendation the ethics prompt itself
offers), analyze_student returns ethics_veto = true with decision
SOFT_OUTREACH, which is neither ESCALATE_TO_HUMAN nor
URGENT_HUMAN_ESCALATION: a veto does not force a human-routing posture. -/
theorem C1_counterexample :
    (CoordinatorAgent.analyze_student 0 [] ethVetoSoft).map
        (fun d => (d.ethics_veto, d.decision)) = Except.ok (true, "SOFT_OUTREACH") ∧
    "SOFT_OUTREACH" ≠ "ESCALATE_TO_HUMAN" ∧
    "SOFT_OUTREACH" ≠ "URGENT_HUMAN_ESCALATION" :=
  ⟨by decide, by decide, by decide⟩

/-- C1 amended: whenever the ethics output carries veto = true (and its
recommendation and comment keys are present, otherwise the branch raises
KeyError), every decision analyze_student returns has ethics_veto = true and
decision equal to the ethics output's recommendation string verbatim - so
the posture is ESCALATE_TO_HUMAN or URGENT_HUMAN_ESCALATION only when the
externally chosen recommendation happens to be one of those; the
coordinator itself never forces a human-routing posture on veto. -/
theorem C1_veto_decision_is_recommendation (now : ℚ) (events : List StudentEvent)
    (eth : EthicsLLMResult) (rec c : String) (d : CoordinatorAgent.DecisionResult)
    (hveto : eth.veto = some true)
    (hrec : eth.recommendation = some rec)
    (hcom : eth.comment = some c)
    (hok : CoordinatorAgent.analyze_student now events eth = Except.ok d) :
    d.decision = rec ∧ d.ethics_veto = true := by
  cases hl : LanguageAgent.evaluate events with
  | error e =>
      simp [CoordinatorAgent.analyze_student, hl] at hok
  | ok lang =>
      simp only [CoordinatorAgent.analyze_student, hl, EthicsAgent.evaluate,
        hveto, hrec, hcom, Option.getD_some, if_true] at hok
      rw [Except.ok.injEq] at hok
      subst hok
      simp

/-- Witness for C1 at the concrete no-event run under ethVetoSoft. -/
theorem C1_veto_decision_is_recommendation_witness :
    vetoSoftDecision.decision = "SOFT_OUTREACH" ∧ vetoSoftDecision.ethics_veto = true :=
  C1_veto_decision_is_recommendation 0 [] ethVetoSoft "SOFT_OUTREACH"
    "needs human warmth" vetoSoftDecision rfl rfl rfl rfl

/-- C2 counterexample: the aggregate_risk returned on a veto is not a fixed
treat-as-urgent sentinel: with no risk key in the ethics output it is 0.0
(the opposite of urgent), and with risk 0.9 it is 0.9 - two vetoed runs
yield two different aggregate_risk values. -/
theorem C2_counterexample :
    (CoordinatorAgent.analyze_student 0 [] ethVetoNoRisk).map
        (fun d => (d.ethics_veto, d.aggregate_risk)) = Except.ok (true, 0) ∧
    (CoordinatorAgent.analyze_student 0 [] ethVetoHighRisk).map
        (fun d => (d.ethics_veto, d.aggregate_risk)) = Except.ok (true, 9/10) ∧
    (0 : ℚ) ≠ 9/10 :=
  ⟨rfl, rfl, by norm_num⟩

/-- C2 amended: on an ethics veto (with recommendation and comment keys
present) analyze_student returns immediately with decision equal to the
guardian's recommendation and with aggregate_risk equal to the ethics
output's own risk value (0.0 when the key is absent) - a value that does not
depend on the domain outputs, so the confidence-weighted aggregation math is
skipped; but it is the ethics risk field, not a fixed treat-as-urgent
sentinel. -/
theorem C2_veto_skips_weighting_aggregate_is_ethics_risk (now : ℚ)
    (events : List StudentEvent) (eth : EthicsLLMResult) (rec c : String)
    (d : CoordinatorAgent.DecisionResult)
    (hveto : eth.veto = some true)
    (hrec : eth.recommendation = some rec)
    (hcom : eth.comment = some c)
    (hok : CoordinatorAgent.analyze_student now events eth = Except.ok d) :
    d.decision = rec ∧ d.aggregate_risk = eth.risk.getD 0 ∧ d.ethics_veto = true := by
  cases hl : LanguageAgent.evaluate events with
  | error e =>
      simp [CoordinatorAgent.analyze_student, hl] at hok
  | ok lang =>
      simp only [CoordinatorAgent.analyze_student, hl, EthicsAgent.evaluate,
        hveto, hrec, hcom, Option.getD_some, if_true] at hok
      rw [Except.ok.injEq] at hok
      subst hok
      simp

/-- Witness for C2 at the concrete no-event run under ethVetoHighRisk. -/
theorem C2_veto_skips_weighting_aggregate_is_ethics_risk_witness :
    vetoHighRiskDecision.decision = "URGENT_HUMAN_ESCALATION" ∧
    vetoHighRiskDecision.aggregate_risk = ethVetoHighRisk.risk.getD 0 ∧
    vetoHighRiskDecision.ethics_veto = true :=
  C2_veto_skips_weighting_aggregate_is_ethics_risk 0 [] ethVetoHighRisk
    "URGENT_HUMAN_ESCALATION" "too sparse" vetoHighRiskDecision rfl rfl rfl rfl

/-
  Claim C7: fault propagation out of analyze_student.
-/

/-- C7: for EVERY non-empty StudentEvent list (regardless of severities or
types), CoordinatorAgent.analyze_student raises instead of returning a
decision dict: LanguageAgent.evaluate calls e.get on each SQLAlchemy
StudentEvent row while filtering, and StudentEvent has no .get method, so
the first event raises AttributeError, which nothing in the coordinator
catches. The claim that no unhandled fault propagates past an evaluation
cycle fails on every non-empty input; only the empty list completes. -/
theorem C7_analyze_student_raises_on_any_event (now : ℚ) (e : StudentEvent)
    (es : List StudentEvent) (eth : EthicsLLMResult) :
    CoordinatorAgent.analyze_student now (e :: es) eth =
      Except.error "AttributeError: StudentEvent object has no attribute get" := rfl

/-
  Claims C5, C6: the action execution state machine.
-/

/-- C5: execute_action starts an action unconditionally. Its first committed
step (ioa.py 454-456) sets status = EXECUTING without reading the status of
the action referenced by depends_on_action_id: here blockedAction depends on
action 1, which is still PENDING (not COMPLETED), and the blocked action is
nevertheless observed EXECUTING. The dependency gate the claim describes
does not exist anywhere in execute_action. -/
theorem C5_executing_while_dependency_pending :
    blockedAction.depends_on_action_id = depAction.id ∧
    depAction.status = ActionStatus.pending ∧
    depAction.status ≠ ActionStatus.completed ∧
    (InterventionOrchestratorAgent.execute_action_start blockedAction).status =
      ActionStatus.executing := by decide

/-- C6: five consecutive execute_action invocations whose delegate raises
drive retry_count of an action with max_retries = 3 to 5: the code
increments retry_count on every exception (ioa.py 485) and never consults
max_retries, so retry_count exceeds max_retries and no retry cap exists. -/
theorem C6_retry_count_exceeds_max_retries :
    (InterventionOrchestratorAgent.execute_action_iter retriableAction
        (List.replicate 5 (DelegateOutcome.raises "KeyError"))).retry_count = 5 ∧
    (InterventionOrchestratorAgent.execute_action_iter retriableAction
        (List.replicate 5 (DelegateOutcome.raises "KeyError"))).max_retries = 3 ∧
    (InterventionOrchestratorAgent.execute_action_iter retriableAction
        (List.replicate 5 (DelegateOutcome.raises "KeyError"))).max_retries <
      (InterventionOrchestratorAgent.execute_action_iter retriableAction
        (List.replicate 5 (DelegateOutcome.raises "KeyError"))).retry_count ∧
    (InterventionOrchestratorAgent.execute_action_iter retriableAction
        (List.replicate 5 (DelegateOutcome.raises "KeyError"))).status =
      ActionStatus.failed := by decide

/-
  Claim C10: the escalation action's recorded dependency.
-/

/-- C10: for every plan id, hypothesis and observation context, the final
emergency-escalation action appended by _create_action_sequence carries
depends_on_action_id = none: it copies actions[0].id, and every action in
the list is an unflushed ORM object whose primary key is still None because
db.commit runs only after the whole list is built. -/
theorem C10_escalation_depends_on_none (now : ℚ) (plan_id : Option ℕ)
    (hypothesis : InterventionOrchestratorAgent.Hypothesis)
    (ctx : InterventionOrchestratorAgent.ObservationContext) :
    (InterventionOrchestratorAgent.create_action_sequence now plan_id hypothesis ctx).getLast?.map
        (fun a => (a.action_type, a.depends_on_action_id)) =
      some (InterventionType.emergency_escalation, none) := by
  simp only [InterventionOrchestratorAgent.create_action_sequence]
  split_ifs <;> simp [List.getLast?_concat]
